import Mathlib

/-!
Shallow embedding of the Offline LLM RAG System service
(src/rag-service/main.py) and verification of its specification.

Python strings are modelled as Lean String values (a String wraps its list
of characters, so all character-level reasoning happens on List Char).
Python lists are Lean lists.  The external collaborators - pypdf, the
SentenceTransformer embedding model, the ChromaDB collection and the Ollama
HTTP backend - are black boxes: their outputs are inputs of the translated
functions, exactly at the boundary the code calls them.  Exceptions are
modelled with Except: raising propagates, a try/except block maps the error.
-/

set_option maxRecDepth 8192

namespace RAG

/-- Whitespace test used by Python str.split() and str.strip(). -/
def isWs (c : Char) : Bool := c.isWhitespace

/-- Scanner implementing Python str.split() with no separator argument:
acc holds the characters of the current word in reverse; maximal runs of
non-whitespace characters are emitted in order, empty strings never are. -/
def pyWordsAux : List Char → List Char → List (List Char)
  | [], acc => if acc = [] then [] else [acc.reverse]
  | c :: cs, acc =>
    if isWs c then
      if acc = [] then pyWordsAux cs [] else acc.reverse :: pyWordsAux cs []
    else
      pyWordsAux cs (c :: acc)

/-- Whitespace-delimited tokens of a character list. -/
def pyWords (l : List Char) : List (List Char) := pyWordsAux l []

/-- Python text.split(): the list of whitespace-delimited tokens. -/
def py_split (s : String) : List String := (pyWords s.data).map String.mk

/-- Character-level sep.join(list) in the Python sense. -/
def joinBy (sep : List Char) : List (List Char) → List Char
  | [] => []
  | [w] => w
  | w :: ws => w ++ sep ++ joinBy sep ws

/-- Python sep.join(list_of_strings). -/
def py_join (sep : String) (ss : List String) : String :=
  String.mk (joinBy sep.data (ss.map String.data))

/-- Python text.strip(): drop leading and trailing whitespace. -/
def py_strip (s : String) : String :=
  String.mk (((s.data.dropWhile isWs).reverse.dropWhile isWs).reverse)

/-- Python text.endswith(suffix). -/
def py_endswith (s t : String) : Bool := t.data.isSuffixOf s.data

/-- Errors raised by the translated service code: ValueError comes from the
Python runtime (range with a zero step), HTTPException carries the status
code and detail string exactly as main.py raises them. -/
inductive PyError where
  | valueError (msg : String)
  | httpException (status : Nat) (detail : String)
  deriving DecidableEq

/-- Python range(0, stop, step) for a positive step: the offsets k*step for
k < ceil(stop/step).  (For step = 0 Python raises ValueError, and for a
negative step with a nonnegative stop the range is empty; chunk_text below
handles those two cases before using this function.) -/
def pyRangeN (stop step : Nat) : List Nat :=
  (List.range ((stop + step - 1) / step)).map (fun k => k * step)

/-- Translation of chunk_text (main.py lines 61-69):
words = text.split(); for i in range(0, len(words), chunk_size - overlap):
join words[i : i + chunk_size] with single spaces, keep it if nonempty.
The three-way split mirrors Python range semantics for the step
chunk_size - overlap: a zero step raises ValueError when the range is
built, before any chunk exists; a negative step gives an empty range, so
the loop body never runs and the empty list is returned. -/
def chunk_text (text : String) (chunk_size : Nat) (overlap : Nat) :
    Except PyError (List String) :=
  let words := py_split text
  if chunk_size = overlap then
    Except.error (PyError.valueError "range() arg 3 must not be zero")
  else if chunk_size < overlap then
    Except.ok []
  else
    Except.ok
      (((pyRangeN words.length (chunk_size - overlap)).map
          (fun i => py_join " " ((words.drop i).take chunk_size))).filter
        (fun c => c != ""))

/-- The token window the loop body of chunk_text reads at offset i:
words[i : i + chunk_size]. -/
def window (words : List String) (chunk_size i : Nat) : List String :=
  (words.drop i).take chunk_size

/-- Token-level form of the chunk list chunk_text produces in the valid
regime (overlap < chunk_size): one window per loop offset. -/
def chunk_words (words : List String) (chunk_size overlap : Nat) :
    List (List String) :=
  (pyRangeN words.length (chunk_size - overlap)).map (window words chunk_size)

/-- A page record produced by extract_text_from_pdf, and also the shape of
the sub-chunk records upload_pdf accumulates in all_chunks (the Python code
uses dicts with keys text, page, source for both). -/
structure PageChunk where
  text : String
  page : Nat
  source : String
  deriving DecidableEq

/-- Translation of extract_text_from_pdf (main.py lines 43-59).  pypdf is
external, so the pdf argument is what the reader yields: either the ordered
raw page texts or a failure, which the except-branch converts into
HTTPException 400.  A page is kept, with its 1-based number and the file
name, exactly when its stripped text is nonempty. -/
def extract_text_from_pdf (name : String) (pdf : Except String (List String)) :
    Except PyError (List PageChunk) :=
  match pdf with
  | Except.error e =>
      Except.error (PyError.httpException 400 ("Error reading PDF: " ++ e))
  | Except.ok pages =>
      Except.ok (pages.enum.filterMap
        (fun p =>
          if py_strip p.2 ≠ "" then
            some { text := p.2, page := p.1 + 1, source := name }
          else none))

/-- The nested loop of upload_pdf (main.py lines 393-401): for every page
chunk, run chunk_text on its text with the default parameters 500 and 50
and append one record per sub-chunk, inheriting page and source.  An error
raised by chunk_text would propagate, aborting the whole upload. -/
def all_chunks_of : List PageChunk → Except PyError (List PageChunk)
  | [] => Except.ok []
  | pc :: rest =>
    match chunk_text pc.text 500 50 with
    | Except.error e => Except.error e
    | Except.ok text_chunks =>
      match all_chunks_of rest with
      | Except.error e => Except.error e
      | Except.ok more =>
          Except.ok
            ((text_chunks.map
              (fun c => { text := c, page := pc.page, source := pc.source })) ++ more)

/-- A record stored in the ChromaDB collection by collection.add: id,
embedding vector, document text and the metadata dict (page, source). -/
structure IndexedChunk where
  id : String
  embedding : List Int
  text : String
  page : Nat
  source : String
  deriving DecidableEq

/-- The JSON body upload_pdf returns. -/
structure UploadResponse where
  message : String
  chunks_added : Nat
  deriving DecidableEq

/-- External collaborators of upload_pdf: the sentence-transformer model
(one vector per input text, order preserved) and the uuid4 supply, one
fresh id per position in the batch. -/
structure Env where
  embed : String → List Int
  uuid : Nat → String

/-- The records collection.add appends for the batch: position k gets the
k-th uuid, the embedding of its text, the text and its metadata.  This is
the zip of the parallel lists ids, embeddings, documents, metadatas that
upload_pdf builds, all of which run over all_chunks in order. -/
def add_from (env : Env) : Nat → List PageChunk → List IndexedChunk
  | _, [] => []
  | k, c :: l =>
      { id := env.uuid k, embedding := env.embed c.text,
        text := c.text, page := c.page, source := c.source } :: add_from env (k + 1) l

/-- Translation of upload_pdf (main.py lines 377-417) with the collection
state passed explicitly: the pair returned is (HTTP result, state of the
collection after the call).  Saving the upload to disk is plumbing and has
no observable effect on the collection, so it is not modelled. -/
def upload_pdf (env : Env) (filename : String) (pdf : Except String (List String))
    (st : List IndexedChunk) :
    Except PyError UploadResponse × List IndexedChunk :=
  if py_endswith filename ".pdf" = false then
    (Except.error (PyError.httpException 400 "Only PDF files are allowed"), st)
  else
    match extract_text_from_pdf filename pdf with
    | Except.error e => (Except.error e, st)
    | Except.ok page_chunks =>
      match all_chunks_of page_chunks with
      | Except.error e => (Except.error e, st)
      | Except.ok all_chunks =>
          (Except.ok { message := "PDF indexed successfully",
                       chunks_added := all_chunks.length },
           st ++ add_from env 0 all_chunks)

/-- The request body of the ask endpoint. -/
structure QuestionRequest where
  question : String
  top_k : Nat
  deriving DecidableEq

/-- A citation dict of the response: text, page, source. -/
structure Citation where
  text : String
  page : Nat
  source : String
  deriving DecidableEq

/-- The response body of the ask endpoint. -/
structure AnswerResponse where
  answer : String
  citations : List Citation
  deriving DecidableEq

/-- One retrieved result of collection.query: a document string zipped with
its metadata, in the descending-similarity order the index returns. -/
structure RetrievedChunk where
  text : String
  page : Nat
  source : String
  deriving DecidableEq

/-- Outcome of the HTTP call to the Ollama backend: a timeout, a
non-success status (raise_for_status), a payload response.json() cannot
decode, or a decoded JSON payload whose optional response field is
carried. -/
inductive BackendResult where
  | timeout (msg : String)
  | statusError (msg : String)
  | badJson (msg : String)
  | jsonOk (response : Option String)
  deriving DecidableEq

/-- The try/except around the Ollama call (main.py lines 459-477): every
raised error e becomes HTTPException 500 with the cause appended, and on a
decoded payload the answer is result.get("response", ""). -/
def call_ollama (b : BackendResult) : Except PyError String :=
  match b with
  | BackendResult.timeout msg =>
      Except.error (PyError.httpException 500 ("Error calling Ollama: " ++ msg))
  | BackendResult.statusError msg =>
      Except.error (PyError.httpException 500 ("Error calling Ollama: " ++ msg))
  | BackendResult.badJson msg =>
      Except.error (PyError.httpException 500 ("Error calling Ollama: " ++ msg))
  | BackendResult.jsonOk r => Except.ok (r.getD "")

/-- The context lines the loop of main.py lines 436-444 accumulates:
entry i is "[Source i+1] " followed by the i-th retrieved document. -/
def build_context_parts (results : List RetrievedChunk) : List String :=
  results.enum.map (fun p => "[Source " ++ toString (p.1 + 1) ++ "] " ++ p.2.text)

/-- The citation list the same loop accumulates: one citation per retrieved
result, same order, projecting text, page and source. -/
def build_citations (results : List RetrievedChunk) : List Citation :=
  results.map (fun r => { text := r.text, page := r.page, source := r.source })

/-- The prompt template of main.py lines 449-456 around the joined context
and the question. -/
def make_prompt (context question : String) : String :=
  "Based on the following context from documents, answer the question. If the answer is not in the context, say so.\n\nContext:\n"
    ++ context ++ "\n\nQuestion: " ++ question
    ++ "\n\nAnswer (cite sources using [Source N] notation):"

/-- The full prompt ask_question sends: the context lines joined by blank
lines, inside the template. -/
def assembled_prompt (req : QuestionRequest) (results : List RetrievedChunk) : String :=
  make_prompt (py_join "\n\n" (build_context_parts results)) req.question

/-- Translation of ask_question (main.py lines 419-479).  The embedding
model and the vector index are external: results stands for the zip of
documents[0] and metadatas[0] of the collection.query answer for the
question embedding (descending similarity), and backend maps the prompt
actually sent to the outcome of the Ollama call. -/
def ask_question (req : QuestionRequest) (results : List RetrievedChunk)
    (backend : String → BackendResult) : Except PyError AnswerResponse :=
  if results = [] then
    Except.error
      (PyError.httpException 404 "No documents found. Please upload PDFs first.")
  else
    match call_ollama (backend (assembled_prompt req results)) with
    | Except.error e => Except.error e
    | Except.ok answer =>
        Except.ok { answer := answer, citations := build_citations results }

/-- A nonempty whitespace-free token: the shape of everything py_split
yields, and the precondition under which joining with spaces and splitting
again is the identity. -/
def goodToken (w : String) : Prop := w.data ≠ [] ∧ ∀ c ∈ w.data, isWs c = false

@[simp] theorem mk_data (s : String) : String.mk s.data = s := rfl

theorem pyWordsAux_good : ∀ (l acc : List Char), (∀ c ∈ acc, isWs c = false) →
    ∀ w ∈ pyWordsAux l acc, w ≠ [] ∧ ∀ c ∈ w, isWs c = false
  | [], acc, hacc, w, hw => by
    unfold pyWordsAux at hw
    by_cases h : acc = []
    · simp [h] at hw
    · simp only [h, if_false] at hw
      simp only [List.mem_singleton] at hw
      subst hw
      exact ⟨by simpa using h, fun c hc => hacc c (List.mem_reverse.mp hc)⟩
  | c :: cs, acc, hacc, w, hw => by
    unfold pyWordsAux at hw
    by_cases hws : isWs c = true
    · rw [if_pos hws] at hw
      by_cases h : acc = []
      · rw [if_pos h] at hw
        exact pyWordsAux_good cs [] (by simp) w hw
      · rw [if_neg h] at hw
        rcases List.mem_cons.mp hw with hw | hw
        · subst hw
          exact ⟨by simpa using h, fun d hd => hacc d (List.mem_reverse.mp hd)⟩
        · exact pyWordsAux_good cs [] (by simp) w hw
    · rw [if_neg hws] at hw
      refine pyWordsAux_good cs (c :: acc) ?_ w hw
      intro d hd
      rcases List.mem_cons.mp hd with h | h
      · subst h; simpa using hws
      · exact hacc d h

theorem pyWordsAux_cons_neg (c : Char) (cs acc : List Char) (h : isWs c = false) :
    pyWordsAux (c :: cs) acc = pyWordsAux cs (c :: acc) := by
  simp only [pyWordsAux]
  rw [if_neg (by simp [h])]

theorem pyWordsAux_cons_pos (c : Char) (cs acc : List Char) (h : isWs c = true)
    (hacc : acc ≠ []) :
    pyWordsAux (c :: cs) acc = acc.reverse :: pyWordsAux cs [] := by
  simp only [pyWordsAux]
  rw [if_pos h, if_neg hacc]

theorem pyWordsAux_nil (acc : List Char) (hacc : acc ≠ []) :
    pyWordsAux [] acc = [acc.reverse] := by
  simp only [pyWordsAux]
  rw [if_neg hacc]

theorem pyWordsAux_word : ∀ (w : List Char), (∀ c ∈ w, isWs c = false) →
    ∀ (r acc : List Char), pyWordsAux (w ++ r) acc = pyWordsAux r (w.reverse ++ acc)
  | [], _, r, acc => by simp
  | c :: w, hw, r, acc => by
    have hc : isWs c = false := hw c (by simp)
    have h1 : (c :: w) ++ r = c :: (w ++ r) := rfl
    rw [h1, pyWordsAux_cons_neg c (w ++ r) acc hc,
      pyWordsAux_word w (fun d hd => hw d (by simp [hd])) r (c :: acc)]
    congr 1
    simp

theorem pyWords_joinBy : ∀ ws : List (List Char),
    (∀ w ∈ ws, w ≠ [] ∧ ∀ c ∈ w, isWs c = false) →
    pyWords (joinBy [' '] ws) = ws
  | [], _ => rfl
  | [w], h => by
    obtain ⟨hne, hgood⟩ := h w (by simp)
    show pyWordsAux (joinBy [' '] [w]) [] = [w]
    have hj : joinBy [' '] [w] = w ++ [] := by simp [joinBy]
    rw [hj, pyWordsAux_word w hgood [] [],
      pyWordsAux_nil (w.reverse ++ []) (by simpa using hne)]
    simp
  | w :: v :: ws, h => by
    obtain ⟨hne, hgood⟩ := h w (by simp)
    have hrest : ∀ u ∈ v :: ws, u ≠ [] ∧ ∀ c ∈ u, isWs c = false :=
      fun u hu => h u (List.mem_cons_of_mem w hu)
    have hj : joinBy [' '] (w :: v :: ws) = w ++ (' ' :: joinBy [' '] (v :: ws)) := by
      show w ++ [' '] ++ joinBy [' '] (v :: ws) = _
      simp
    show pyWordsAux (joinBy [' '] (w :: v :: ws)) [] = w :: v :: ws
    rw [hj, pyWordsAux_word w hgood,
      pyWordsAux_cons_pos ' ' (joinBy [' '] (v :: ws)) (w.reverse ++ [])
        (by decide) (by simpa using hne)]
    have := pyWords_joinBy (v :: ws) hrest
    unfold pyWords at this
    rw [this]
    simp

theorem py_split_py_join (ws : List String) (h : ∀ w ∈ ws, goodToken w) :
    py_split (py_join " " ws) = ws := by
  unfold py_split py_join
  have hsep : (" " : String).data = [' '] := rfl
  rw [hsep]
  show (pyWords (joinBy [' '] (ws.map String.data))).map String.mk = ws
  rw [pyWords_joinBy (ws.map String.data) ?_]
  · rw [List.map_map]
    calc List.map (String.mk ∘ String.data) ws
        = ws.map id := List.map_congr_left (fun _ _ => rfl)
      _ = ws := List.map_id ws
  · intro w hw
    obtain ⟨x, hx, rfl⟩ := List.mem_map.mp hw
    exact h x hx

theorem py_split_good (s : String) : ∀ w ∈ py_split s, goodToken w := by
  intro w hw
  obtain ⟨l, hl, rfl⟩ := List.mem_map.mp hw
  exact pyWordsAux_good s.data [] (by simp) l hl

theorem py_join_ne_empty (w : String) (ws : List String) (hw : w.data ≠ []) :
    py_join " " (w :: ws) ≠ "" := by
  intro h
  have hd := congrArg String.data h
  have hempty : ("" : String).data = [] := rfl
  rw [hempty] at hd
  cases ws with
  | nil => exact hw (by simpa [py_join, joinBy] using hd)
  | cons v vs =>
    have hj : (py_join " " (w :: v :: vs)).data
        = w.data ++ [' '] ++ joinBy [' '] ((v :: vs).map String.data) := rfl
    rw [hj] at hd
    simp at hd

theorem joinBy_head (ws : List String) (h : ∀ w ∈ ws, goodToken w) (hne : ws ≠ []) :
    ∃ c t, joinBy [' '] (ws.map String.data) = c :: t ∧ isWs c = false := by
  cases ws with
  | nil => exact absurd rfl hne
  | cons w vs =>
    obtain ⟨hwne, hwgood⟩ := h w (by simp)
    obtain ⟨c, t, hct⟩ := List.exists_cons_of_ne_nil hwne
    cases vs with
    | nil =>
      refine ⟨c, t, ?_, hwgood c (by rw [hct]; simp)⟩
      simpa [joinBy] using hct
    | cons v vs =>
      refine ⟨c, t ++ [' '] ++ joinBy [' '] ((v :: vs).map String.data),
        ?_, hwgood c (by rw [hct]; simp)⟩
      show w.data ++ [' '] ++ joinBy [' '] ((v :: vs).map String.data) = _
      rw [hct]
      simp

theorem joinBy_last : ∀ (ws : List String), (∀ w ∈ ws, goodToken w) → ws ≠ [] →
    ∃ c t, (joinBy [' '] (ws.map String.data)).reverse = c :: t ∧ isWs c = false
  | [], _, hne => absurd rfl hne
  | [w], h, _ => by
    obtain ⟨hwne, hwgood⟩ := h w (by simp)
    have hrev : w.data.reverse ≠ [] := by simpa using hwne
    obtain ⟨c, t, hct⟩ := List.exists_cons_of_ne_nil hrev
    refine ⟨c, t, by simpa [joinBy] using hct, ?_⟩
    exact hwgood c (List.mem_reverse.mp (by rw [hct]; simp))
  | w :: v :: vs, h, _ => by
    obtain ⟨c, t, hct, hc⟩ := joinBy_last (v :: vs)
      (fun u hu => h u (List.mem_cons_of_mem w hu)) (by simp)
    refine ⟨c, t ++ [' '] ++ w.data.reverse, ?_, hc⟩
    show (w.data ++ [' '] ++ joinBy [' '] ((v :: vs).map String.data)).reverse = _
    rw [List.reverse_append, List.reverse_append, hct]
    simp

theorem py_strip_join_ne_empty (ws : List String) (h : ∀ w ∈ ws, goodToken w)
    (hne : ws ≠ []) : py_strip (py_join " " ws) ≠ "" := by
  obtain ⟨c, t, hct, hc⟩ := joinBy_head ws h hne
  obtain ⟨c2, t2, hct2, hc2⟩ := joinBy_last ws h hne
  intro heq
  have hd := congrArg String.data heq
  have hempty : ("" : String).data = [] := rfl
  rw [hempty] at hd
  have hdata : (py_join " " ws).data = joinBy [' '] (ws.map String.data) := rfl
  rw [py_strip, hdata, hct] at hd
  rw [List.dropWhile_cons, if_neg (by simp [hc])] at hd
  rw [← hct, hct2] at hd
  rw [List.dropWhile_cons, if_neg (by simp [hc2])] at hd
  simp at hd

theorem pyRangeN_lt {stop step i : Nat} (hs : 0 < step) (hi : i ∈ pyRangeN stop step) :
    i < stop := by
  obtain ⟨k, hk, rfl⟩ := List.mem_map.mp hi
  rw [List.mem_range] at hk
  have h2 : (k + 1) * step ≤ stop + step - 1 := by
    calc (k + 1) * step ≤ ((stop + step - 1) / step) * step :=
          Nat.mul_le_mul_right step hk
    _ ≤ stop + step - 1 := Nat.div_mul_le_self _ _
  rw [Nat.succ_mul] at h2
  omega

theorem mul_mem_pyRangeN {stop step k : Nat} (hs : 0 < step) (h : k * step < stop) :
    k * step ∈ pyRangeN stop step := by
  refine List.mem_map.mpr ⟨k, List.mem_range.mpr ?_, rfl⟩
  have h1 : k ≤ (stop - 1) / step := (Nat.le_div_iff_mul_le hs).mpr (by omega)
  have h2 : (stop - 1 + step) / step = (stop - 1) / step + 1 :=
    Nat.add_div_right _ hs
  have h3 : stop - 1 + step = stop + step - 1 := by omega
  rw [h3] at h2
  omega

theorem window_cons (words : List String) (cs i : Nat) (hcs : 0 < cs)
    (hi : i < words.length) : ∃ w t, window words cs i = w :: t := by
  have h1 : words.drop i ≠ [] := by
    intro hnil
    rw [List.drop_eq_nil_iff] at hnil
    omega
  obtain ⟨w, t, ht⟩ := List.exists_cons_of_ne_nil h1
  cases cs with
  | zero => omega
  | succ n => exact ⟨w, t.take n, by rw [window, ht]; rfl⟩

theorem window_subset (words : List String) (cs i : Nat) :
    ∀ w ∈ window words cs i, w ∈ words :=
  fun _ hw => List.mem_of_mem_drop (List.mem_of_mem_take hw)

theorem chunk_words_good (text : String) (cs ov : Nat) :
    ∀ w ∈ chunk_words (py_split text) cs ov, ∀ tok ∈ w, goodToken tok :=
  fun _ hw tok htok => by
    obtain ⟨i, _, rfl⟩ := List.mem_map.mp hw
    exact py_split_good text tok (window_subset (py_split text) cs i tok htok)

/-- In the valid regime overlap < chunk_size, chunk_text succeeds and its
chunks are exactly the space-joined token windows: the trailing nonemptiness
filter of the Python loop removes nothing, because every window starts at an
offset below the token count and so contains at least one nonempty token. -/
theorem chunk_text_ok (text : String) (cs ov : Nat) (h : ov < cs) :
    chunk_text text cs ov =
      Except.ok ((chunk_words (py_split text) cs ov).map (py_join " ")) := by
  have hne : ¬ cs = ov := by omega
  have hnl : ¬ cs < ov := by omega
  simp only [chunk_text, hne, if_false, hnl]
  have hLM : (pyRangeN (py_split text).length (cs - ov)).map
        (fun i => py_join " " (((py_split text).drop i).take cs))
      = (chunk_words (py_split text) cs ov).map (py_join " ") := by
    rw [chunk_words, List.map_map]
    rfl
  rw [hLM]
  congr 1
  apply List.filter_eq_self.mpr
  intro a ha
  obtain ⟨w, hwmem, rfl⟩ := List.mem_map.mp ha
  obtain ⟨i, hi, rfl⟩ := List.mem_map.mp hwmem
  have hilt : i < (py_split text).length := pyRangeN_lt (by omega) hi
  obtain ⟨tok, t, htok⟩ := window_cons (py_split text) cs i (by omega) hilt
  rw [htok]
  have hgood : goodToken tok := py_split_good text tok
    (window_subset (py_split text) cs i tok (by rw [htok]; simp))
  simpa using py_join_ne_empty tok t hgood.1

theorem chunk_words_get (ws : List String) (cs ov j : Nat)
    (hj : j < (chunk_words ws cs ov).length) :
    (chunk_words ws cs ov).get ⟨j, hj⟩ = window ws cs (j * (cs - ov)) := by
  simp [chunk_words, pyRangeN, List.get_eq_getElem]

/-- Coverage: every token of the split text lies in at least one window. -/
theorem chunk_words_cover (ws : List String) (cs ov : Nat) (h : ov < cs) :
    ∀ tok ∈ ws, ∃ w ∈ chunk_words ws cs ov, tok ∈ w := by
  intro tok htok
  obtain ⟨⟨t, ht⟩, rfl⟩ := List.mem_iff_get.mp htok
  have hs0 : 0 < cs - ov := by omega
  have hle : t / (cs - ov) * (cs - ov) ≤ t := Nat.div_mul_le_self t (cs - ov)
  have hlt : t < t / (cs - ov) * (cs - ov) + (cs - ov) := by
    by_contra hcon
    push_neg at hcon
    have hmul : (t / (cs - ov) + 1) * (cs - ov) ≤ t := by
      rw [Nat.succ_mul]
      omega
    have := (Nat.le_div_iff_mul_le hs0).mpr hmul
    omega
  refine ⟨window ws cs (t / (cs - ov) * (cs - ov)),
    List.mem_map_of_mem _ (mul_mem_pyRangeN hs0 (by omega)), ?_⟩
  have hd : t - t / (cs - ov) * (cs - ov) < (window ws cs (t / (cs - ov) * (cs - ov))).length := by
    rw [window, List.length_take, List.length_drop]
    omega
  have hget : (window ws cs (t / (cs - ov) * (cs - ov))).get
      ⟨t - t / (cs - ov) * (cs - ov), hd⟩ = ws.get ⟨t, ht⟩ := by
    simp only [window, List.get_eq_getElem, List.getElem_take, List.getElem_drop]
    congr 1
    omega
  rw [← hget]
  exact List.get_mem _ _ _

/-- Overlap continuity for a full window: when window j holds exactly
chunk_size tokens, its last overlap tokens coincide with the first overlap
tokens of window j+1, and those first tokens do number overlap. -/
theorem chunk_words_overlap (ws : List String) (cs ov j : Nat) (h : ov < cs)
    (hj : j < (chunk_words ws cs ov).length)
    (hj1 : j + 1 < (chunk_words ws cs ov).length)
    (hfull : ((chunk_words ws cs ov).get ⟨j, hj⟩).length = cs) :
    ((chunk_words ws cs ov).get ⟨j, hj⟩).drop
        (((chunk_words ws cs ov).get ⟨j, hj⟩).length - ov) =
      ((chunk_words ws cs ov).get ⟨j + 1, hj1⟩).take ov ∧
    (((chunk_words ws cs ov).get ⟨j + 1, hj1⟩).take ov).length = ov := by
  rw [chunk_words_get ws cs ov j hj] at hfull ⊢
  rw [chunk_words_get ws cs ov (j + 1) hj1]
  have hlen : j * (cs - ov) + cs ≤ ws.length := by
    rw [window, List.length_take, List.length_drop] at hfull
    omega
  have hsucc : (j + 1) * (cs - ov) = j * (cs - ov) + (cs - ov) := Nat.succ_mul _ _
  rw [hfull]
  constructor
  · have e1 : (window ws cs (j * (cs - ov))).drop (cs - ov)
        = (ws.drop (j * (cs - ov) + (cs - ov))).take (cs - (cs - ov)) := by
      simp only [window, List.drop_take, List.drop_drop]
    have e2 : (window ws cs ((j + 1) * (cs - ov))).take ov
        = (ws.drop (j * (cs - ov) + (cs - ov))).take (min ov cs) := by
      simp only [window, List.take_take, hsucc]
    rw [e1, e2]
    congr 1
    omega
  · simp only [window, List.take_take, List.length_take, List.length_drop, hsucc]
    omega

/-- C1 (counterexample): with chunk_size = 1 and overlap = 2 (so
chunk_size ≤ overlap) no ConfigurationError occurs: Python range with a
negative step is empty, so chunk_text returns a chunk sequence (the empty
one) instead of failing. -/
theorem C1_counterexample : chunk_text "a" 1 2 = Except.ok [] := by rfl

/-- C1 (amended): when chunk_size ≤ overlap the chunking loop never runs
forever and never produces a chunk, but the failure the spec asks for only
happens in the boundary case: with chunk_size = overlap the range
construction raises a Python ValueError before any chunk exists, while with
chunk_size < overlap the range is empty and the empty chunk list is
returned without any error. -/
theorem C1_amended (text : String) (cs ov : Nat) (h : cs ≤ ov) :
    (cs = ov → chunk_text text cs ov =
      Except.error (PyError.valueError "range() arg 3 must not be zero")) ∧
    (cs < ov → chunk_text text cs ov = Except.ok []) := by
  constructor
  · intro he
    subst he
    simp [chunk_text]
  · intro hl
    have hne : ¬ cs = ov := by omega
    simp [chunk_text, hne, hl]

/-- Witness for C1_amended at the concrete parameter pairs (1, 1) and
(1, 2). -/
theorem C1_amended_witness :
    ((1 = 1 → chunk_text "b" 1 1 =
        Except.error (PyError.valueError "range() arg 3 must not be zero")) ∧
      (1 < 1 → chunk_text "b" 1 1 = Except.ok [])) ∧
    ((1 = 2 → chunk_text "b" 1 2 =
        Except.error (PyError.valueError "range() arg 3 must not be zero")) ∧
      (1 < 2 → chunk_text "b" 1 2 = Except.ok [])) :=
  ⟨C1_amended "b" 1 1 (by decide), C1_amended "b" 1 2 (by decide)⟩

/-- C2 (counterexample): at text "a b c d" with chunk_size 3 and overlap 2
(valid parameters, and the token count 4 exceeds chunk_size) the chunks are
"a b c", "b c d", "c d", "d"; the consecutive pair ("c d", "d") does not
share two tokens: the last two tokens of "c d" are c, d while "d" holds a
single token. -/
theorem C2_counterexample :
    chunk_text "a b c d" 3 2 = Except.ok ["a b c", "b c d", "c d", "d"] ∧
    3 < (py_split "a b c d").length ∧
    (py_split "c d").drop ((py_split "c d").length - 2) ≠ (py_split "d").take 2 :=
  ⟨by rfl, by decide, by decide⟩

/-- C2 (amended): for valid parameters (overlap < chunk_size) chunk_text
succeeds with the space-joined token windows; every whitespace-delimited
token of the text appears in at least one returned chunk; and every pair of
consecutive chunks whose former member is a full window of chunk_size
tokens shares exactly overlap tokens (the last overlap tokens of the former
are precisely the first overlap tokens of the latter).  The counterexample
shows the sharing fails without the full-window restriction, when the
former window is already clipped by the end of the text. -/
theorem C2_amended (text : String) (cs ov : Nat) (h : ov < cs) :
    chunk_text text cs ov =
      Except.ok ((chunk_words (py_split text) cs ov).map (py_join " ")) ∧
    (∀ tok ∈ py_split text,
      ∃ c ∈ (chunk_words (py_split text) cs ov).map (py_join " "), tok ∈ py_split c) ∧
    (∀ j (hj : j < (chunk_words (py_split text) cs ov).length)
        (hj1 : j + 1 < (chunk_words (py_split text) cs ov).length),
      ((chunk_words (py_split text) cs ov).get ⟨j, hj⟩).length = cs →
        ((chunk_words (py_split text) cs ov).get ⟨j, hj⟩).drop
            (((chunk_words (py_split text) cs ov).get ⟨j, hj⟩).length - ov) =
          ((chunk_words (py_split text) cs ov).get ⟨j + 1, hj1⟩).take ov ∧
        (((chunk_words (py_split text) cs ov).get ⟨j + 1, hj1⟩).take ov).length = ov) := by
  refine ⟨chunk_text_ok text cs ov h, ?_, ?_⟩
  · intro tok htok
    obtain ⟨w, hw, htw⟩ := chunk_words_cover (py_split text) cs ov h tok htok
    refine ⟨py_join " " w, List.mem_map_of_mem _ hw, ?_⟩
    rw [py_split_py_join w (fun u hu => chunk_words_good text cs ov w hw u hu)]
    exact htw
  · intro j hj hj1 hfull
    exact chunk_words_overlap (py_split text) cs ov j h hj hj1 hfull

/-- Witness for C2_amended at text "a b", chunk_size 2, overlap 1. -/
theorem C2_amended_witness :
    1 < 2 ∧
    (chunk_text "a b" 2 1 =
        Except.ok ((chunk_words (py_split "a b") 2 1).map (py_join " ")) ∧
      (∀ tok ∈ py_split "a b",
        ∃ c ∈ (chunk_words (py_split "a b") 2 1).map (py_join " "), tok ∈ py_split c) ∧
      (∀ j (hj : j < (chunk_words (py_split "a b") 2 1).length)
          (hj1 : j + 1 < (chunk_words (py_split "a b") 2 1).length),
        ((chunk_words (py_split "a b") 2 1).get ⟨j, hj⟩).length = 2 →
          ((chunk_words (py_split "a b") 2 1).get ⟨j, hj⟩).drop
              (((chunk_words (py_split "a b") 2 1).get ⟨j, hj⟩).length - 1) =
            ((chunk_words (py_split "a b") 2 1).get ⟨j + 1, hj1⟩).take 1 ∧
          (((chunk_words (py_split "a b") 2 1).get ⟨j + 1, hj1⟩).take 1).length = 1)) :=
  ⟨by decide, C2_amended "a b" 2 1 (by decide)⟩

theorem ask_question_cases (req : QuestionRequest) (results : List RetrievedChunk)
    (backend : String → BackendResult) (ans : AnswerResponse)
    (hok : ask_question req results backend = Except.ok ans) :
    results ≠ [] ∧ ∃ r, backend (assembled_prompt req results) = BackendResult.jsonOk r ∧
      ans = { answer := r.getD "", citations := build_citations results } := by
  by_cases hres : results = []
  · rw [ask_question, if_pos hres] at hok
    cases hok
  · refine ⟨hres, ?_⟩
    rw [ask_question, if_neg hres] at hok
    cases hb : backend (assembled_prompt req results) with
    | timeout m => rw [hb] at hok; simp [call_ollama] at hok
    | statusError m => rw [hb] at hok; simp [call_ollama] at hok
    | badJson m => rw [hb] at hok; simp [call_ollama] at hok
    | jsonOk r =>
      rw [hb] at hok
      simp only [call_ollama, Except.ok.injEq] at hok
      exact ⟨r, rfl, hok.symm⟩

/-- C3: the answer returned by ask_question preserves the order the index
returned: the citation list is exactly the retrieved results, projected in
order (so citation i is built from retrieved result i and the counts are
equal), the i-th context line carries the 1-based label i+1, and the prompt
sent to the generator is the template around those lines joined by blank
lines. -/
theorem C3_order (req : QuestionRequest) (results : List RetrievedChunk)
    (backend : String → BackendResult) (ans : AnswerResponse)
    (hok : ask_question req results backend = Except.ok ans) :
    ans.citations = results.map
      (fun r => ({ text := r.text, page := r.page, source := r.source } : Citation)) ∧
    ans.citations.length = results.length ∧
    build_context_parts results = results.enum.map
      (fun p => "[Source " ++ toString (p.1 + 1) ++ "] " ++ p.2.text) ∧
    assembled_prompt req results =
      make_prompt (py_join "\n\n" (build_context_parts results)) req.question := by
  obtain ⟨_, r, _, hans⟩ := ask_question_cases req results backend ans hok
  refine ⟨?_, ?_, rfl, rfl⟩
  · rw [hans]
    rfl
  · rw [hans]
    simp [build_citations]

/-- Witness for C3_order: one retrieved chunk, a backend answering "ans". -/
theorem C3_order_witness :
    (AnswerResponse.mk "ans" [Citation.mk "t" 1 "a.pdf"]).citations =
      [RetrievedChunk.mk "t" 1 "a.pdf"].map
        (fun r => ({ text := r.text, page := r.page, source := r.source } : Citation)) ∧
    (AnswerResponse.mk "ans" [Citation.mk "t" 1 "a.pdf"]).citations.length =
      [RetrievedChunk.mk "t" 1 "a.pdf"].length ∧
    build_context_parts [RetrievedChunk.mk "t" 1 "a.pdf"] =
      [RetrievedChunk.mk "t" 1 "a.pdf"].enum.map
        (fun p => "[Source " ++ toString (p.1 + 1) ++ "] " ++ p.2.text) ∧
    assembled_prompt (QuestionRequest.mk "q" 3) [RetrievedChunk.mk "t" 1 "a.pdf"] =
      make_prompt (py_join "\n\n" (build_context_parts [RetrievedChunk.mk "t" 1 "a.pdf"]))
        (QuestionRequest.mk "q" 3).question :=
  C3_order (QuestionRequest.mk "q" 3) [RetrievedChunk.mk "t" 1 "a.pdf"]
    (fun _ => BackendResult.jsonOk (some "ans"))
    (AnswerResponse.mk "ans" [Citation.mk "t" 1 "a.pdf"]) (by rfl)

/-- C4: ask_question fails with the 404 no-documents error exactly when the
index query returned zero results; and with at least one result the
retrieval step never fails: any error still possible is the 500 generation
error carrying the backend cause.  No similarity threshold exists anywhere
in the translation. -/
theorem C4_no_docs (req : QuestionRequest) (results : List RetrievedChunk)
    (backend : String → BackendResult) :
    ((ask_question req results backend = Except.error
        (PyError.httpException 404 "No documents found. Please upload PDFs first."))
      ↔ results = []) ∧
    (results ≠ [] → ∀ e, ask_question req results backend = Except.error e →
      ∃ msg, e = PyError.httpException 500 ("Error calling Ollama: " ++ msg)) := by
  constructor
  · constructor
    · intro herr
      by_contra hres
      rw [ask_question, if_neg hres] at herr
      cases hb : backend (assembled_prompt req results) with
      | timeout m => rw [hb] at herr; simp [call_ollama] at herr
      | statusError m => rw [hb] at herr; simp [call_ollama] at herr
      | badJson m => rw [hb] at herr; simp [call_ollama] at herr
      | jsonOk r => rw [hb] at herr; simp [call_ollama] at herr
    · intro hres
      rw [ask_question, if_pos hres]
  · intro hres e herr
    rw [ask_question, if_neg hres] at herr
    cases hb : backend (assembled_prompt req results) with
    | timeout m =>
      rw [hb] at herr
      simp only [call_ollama, Except.error.injEq] at herr
      exact ⟨m, herr.symm⟩
    | statusError m =>
      rw [hb] at herr
      simp only [call_ollama, Except.error.injEq] at herr
      exact ⟨m, herr.symm⟩
    | badJson m =>
      rw [hb] at herr
      simp only [call_ollama, Except.error.injEq] at herr
      exact ⟨m, herr.symm⟩
    | jsonOk r => rw [hb] at herr; simp [call_ollama] at herr

/-- Witness for C4_no_docs: querying with an empty result list yields the
404 no-documents error. -/
theorem C4_no_docs_witness :
    ask_question (QuestionRequest.mk "q" 3) [] (fun _ => BackendResult.jsonOk none) =
      Except.error
        (PyError.httpException 404 "No documents found. Please upload PDFs first.") :=
  (C4_no_docs (QuestionRequest.mk "q" 3) [] (fun _ => BackendResult.jsonOk none)).1.mpr rfl

/-- C5 (counterexample): a successful backend response whose decoded JSON
payload lacks the response field is not reported as a GenerationError:
ask_question returns an Answer whose text is the empty string, with the
citations still attached. -/
theorem C5_counterexample :
    ask_question (QuestionRequest.mk "q" 3) [RetrievedChunk.mk "t" 1 "a.pdf"]
        (fun _ => BackendResult.jsonOk none) =
      Except.ok (AnswerResponse.mk "" [Citation.mk "t" 1 "a.pdf"]) := by rfl

/-- C5 (amended): a timeout, a non-success status and an undecodable
payload each fail with the 500 generation error carrying the underlying
backend cause in its detail; but a decoded payload lacking the answer field
is not an error path: the endpoint then returns an Answer whose text is the
empty string. -/
theorem C5_amended (req : QuestionRequest) (results : List RetrievedChunk)
    (backend : String → BackendResult) (hres : results ≠ []) :
    (∀ msg, backend (assembled_prompt req results) = BackendResult.timeout msg →
      ask_question req results backend =
        Except.error (PyError.httpException 500 ("Error calling Ollama: " ++ msg))) ∧
    (∀ msg, backend (assembled_prompt req results) = BackendResult.statusError msg →
      ask_question req results backend =
        Except.error (PyError.httpException 500 ("Error calling Ollama: " ++ msg))) ∧
    (∀ msg, backend (assembled_prompt req results) = BackendResult.badJson msg →
      ask_question req results backend =
        Except.error (PyError.httpException 500 ("Error calling Ollama: " ++ msg))) ∧
    (backend (assembled_prompt req results) = BackendResult.jsonOk none →
      ask_question req results backend =
        Except.ok (AnswerResponse.mk "" (build_citations results))) := by
  refine ⟨?_, ?_, ?_, ?_⟩
  · intro msg hb
    rw [ask_question, if_neg hres, hb]
    rfl
  · intro msg hb
    rw [ask_question, if_neg hres, hb]
    rfl
  · intro msg hb
    rw [ask_question, if_neg hres, hb]
    rfl
  · intro hb
    rw [ask_question, if_neg hres, hb]
    rfl

/-- Witness for C5_amended: one retrieved chunk and a backend that times
out with cause "boom". -/
theorem C5_amended_witness :
    (∀ msg, (fun _ : String => BackendResult.timeout "boom")
        (assembled_prompt (QuestionRequest.mk "q" 3) [RetrievedChunk.mk "t" 1 "a.pdf"]) =
          BackendResult.timeout msg →
      ask_question (QuestionRequest.mk "q" 3) [RetrievedChunk.mk "t" 1 "a.pdf"]
          (fun _ => BackendResult.timeout "boom") =
        Except.error (PyError.httpException 500 ("Error calling Ollama: " ++ msg))) ∧
    (∀ msg, (fun _ : String => BackendResult.timeout "boom")
        (assembled_prompt (QuestionRequest.mk "q" 3) [RetrievedChunk.mk "t" 1 "a.pdf"]) =
          BackendResult.statusError msg →
      ask_question (QuestionRequest.mk "q" 3) [RetrievedChunk.mk "t" 1 "a.pdf"]
          (fun _ => BackendResult.timeout "boom") =
        Except.error (PyError.httpException 500 ("Error calling Ollama: " ++ msg))) ∧
    (∀ msg, (fun _ : String => BackendResult.timeout "boom")
        (assembled_prompt (QuestionRequest.mk "q" 3) [RetrievedChunk.mk "t" 1 "a.pdf"]) =
          BackendResult.badJson msg →
      ask_question (QuestionRequest.mk "q" 3) [RetrievedChunk.mk "t" 1 "a.pdf"]
          (fun _ => BackendResult.timeout "boom") =
        Except.error (PyError.httpException 500 ("Error calling Ollama: " ++ msg))) ∧
    ((fun _ : String => BackendResult.timeout "boom")
        (assembled_prompt (QuestionRequest.mk "q" 3) [RetrievedChunk.mk "t" 1 "a.pdf"]) =
          BackendResult.jsonOk none →
      ask_question (QuestionRequest.mk "q" 3) [RetrievedChunk.mk "t" 1 "a.pdf"]
          (fun _ => BackendResult.timeout "boom") =
        Except.ok (AnswerResponse.mk ""
          (build_citations [RetrievedChunk.mk "t" 1 "a.pdf"]))) :=
  C5_amended (QuestionRequest.mk "q" 3) [RetrievedChunk.mk "t" 1 "a.pdf"]
    (fun _ => BackendResult.timeout "boom") (by simp)

/-- The chunk strings upload_pdf derives from one page text: chunk_text at
the fixed default parameters chunk_size 500 and overlap 50, which are the
only parameters the ingestion path ever passes. -/
def page_chunk_list (t : String) : List String :=
  (chunk_words (py_split t) 500 50).map (py_join " ")

theorem chunk_text_default (t : String) :
    chunk_text t 500 50 = Except.ok (page_chunk_list t) :=
  chunk_text_ok t 500 50 (by omega)

/-- The sub-chunk records a successful upload accumulates, page by page. -/
def new_chunks (pcs : List PageChunk) : List PageChunk :=
  (pcs.map (fun pc => (page_chunk_list pc.text).map
    (fun c => ({ text := c, page := pc.page, source := pc.source } : PageChunk)))).flatten

theorem all_chunks_of_eq : ∀ pcs : List PageChunk,
    all_chunks_of pcs = Except.ok (new_chunks pcs)
  | [] => rfl
  | pc :: rest => by
    simp only [all_chunks_of, chunk_text_default, all_chunks_of_eq rest, new_chunks,
      List.map_cons, List.flatten_cons]

theorem new_chunks_length (pcs : List PageChunk) :
    (new_chunks pcs).length =
      (pcs.map (fun pc => (page_chunk_list pc.text).length)).sum := by
  rw [new_chunks, List.length_flatten, List.map_map]
  congr 1
  apply List.map_congr_left
  intro pc _
  simp

theorem new_chunks_mem (pcs : List PageChunk) :
    ∀ p ∈ new_chunks pcs, ∃ pc ∈ pcs, p.text ∈ page_chunk_list pc.text ∧
      p.page = pc.page ∧ p.source = pc.source := by
  intro p hp
  rw [new_chunks] at hp
  obtain ⟨sub, hsub, hps⟩ := List.mem_flatten.mp hp
  obtain ⟨pc, hpc, rfl⟩ := List.mem_map.mp hsub
  obtain ⟨t, htl, rfl⟩ := List.mem_map.mp hps
  exact ⟨pc, hpc, htl, rfl, rfl⟩

theorem add_from_length (env : Env) : ∀ (k : Nat) (l : List PageChunk),
    (add_from env k l).length = l.length
  | _, [] => rfl
  | k, c :: l => by
    rw [add_from, List.length_cons, add_from_length env (k + 1) l]
    rfl

theorem add_from_mem (env : Env) : ∀ (k : Nat) (l : List PageChunk),
    ∀ c ∈ add_from env k l,
      ∃ p ∈ l, c.text = p.text ∧ c.page = p.page ∧ c.source = p.source
  | _, [], c, h => by rw [add_from] at h; cases h
  | k, p0 :: l, c, h => by
    rw [add_from] at h
    rcases List.mem_cons.mp h with h | h
    · subst h
      exact ⟨p0, by simp, rfl, rfl, rfl⟩
    · obtain ⟨p, hp, hc⟩ := add_from_mem env (k + 1) l c h
      exact ⟨p, List.mem_cons_of_mem p0 hp, hc⟩

/-- On the success path (pdf filename, extraction succeeded) upload_pdf
reports the number of accumulated sub-chunks and appends their records to
the collection. -/
theorem upload_pdf_ok (env : Env) (filename : String)
    (pdf : Except String (List String)) (st : List IndexedChunk)
    (page_chunks : List PageChunk)
    (hname : py_endswith filename ".pdf" = true)
    (hex : extract_text_from_pdf filename pdf = Except.ok page_chunks) :
    upload_pdf env filename pdf st =
      (Except.ok { message := "PDF indexed successfully",
                   chunks_added := (new_chunks page_chunks).length },
       st ++ add_from env 0 (new_chunks page_chunks)) := by
  rw [upload_pdf, if_neg (by rw [hname]; simp), hex]
  simp [all_chunks_of_eq]

/-- C6: a document whose extraction yields zero page chunks uploads
successfully, reports chunks_added = 0 and leaves the collection unchanged. -/
theorem C6_zero_chunks (env : Env) (filename : String)
    (pdf : Except String (List String)) (st : List IndexedChunk)
    (hname : py_endswith filename ".pdf" = true)
    (hex : extract_text_from_pdf filename pdf = Except.ok []) :
    upload_pdf env filename pdf st =
      (Except.ok { message := "PDF indexed successfully", chunks_added := 0 }, st) := by
  rw [upload_pdf_ok env filename pdf st [] hname hex]
  simp [new_chunks, add_from]

/-- A concrete environment for the witnesses below: a constant embedding
model and a constant id supply. -/
def env0 : Env := { embed := fun _ => [], uuid := fun _ => "" }

/-- Witness for C6_zero_chunks: a pdf named a.pdf whose single page is
blank. -/
theorem C6_zero_chunks_witness :
    py_endswith "a.pdf" ".pdf" = true ∧
    extract_text_from_pdf "a.pdf" (Except.ok [" "]) = Except.ok [] ∧
    upload_pdf env0 "a.pdf" (Except.ok [" "]) [] =
      (Except.ok { message := "PDF indexed successfully", chunks_added := 0 },
       ([] : List IndexedChunk)) :=
  ⟨by decide, by rfl,
   C6_zero_chunks env0 "a.pdf" (Except.ok [" "]) [] (by decide) (by rfl)⟩

/-- C7: a successful upload reports exactly the sum, over the non-blank
pages, of the number of sub-chunks each page text produces, and every
record it adds to the collection carries the page number and source name of
the page chunk it was derived from, its text being one of that page's
chunks. -/
theorem C7_provenance (env : Env) (filename : String)
    (pdf : Except String (List String)) (st : List IndexedChunk)
    (page_chunks : List PageChunk)
    (hname : py_endswith filename ".pdf" = true)
    (hex : extract_text_from_pdf filename pdf = Except.ok page_chunks) :
    ∃ added : List IndexedChunk,
      upload_pdf env filename pdf st =
        (Except.ok (UploadResponse.mk "PDF indexed successfully"
            ((page_chunks.map (fun pc => (page_chunk_list pc.text).length)).sum)),
         st ++ added) ∧
      ∀ c ∈ added, ∃ pc ∈ page_chunks,
        c.page = pc.page ∧ c.source = pc.source ∧ c.text ∈ page_chunk_list pc.text := by
  refine ⟨add_from env 0 (new_chunks page_chunks), ?_, ?_⟩
  · rw [upload_pdf_ok env filename pdf st page_chunks hname hex, new_chunks_length]
  · intro c hc
    obtain ⟨p, hp, ht, hpg, hsrc⟩ := add_from_mem env 0 (new_chunks page_chunks) c hc
    obtain ⟨pc, hpc, htl, hppg, hpsrc⟩ := new_chunks_mem page_chunks p hp
    exact ⟨pc, hpc, by rw [hpg, hppg], by rw [hsrc, hpsrc], by rw [ht]; exact htl⟩

/-- Witness for C7_provenance: a one-page document with the single token x. -/
theorem C7_provenance_witness :
    py_endswith "a.pdf" ".pdf" = true ∧
    extract_text_from_pdf "a.pdf" (Except.ok ["x"]) =
      Except.ok [PageChunk.mk "x" 1 "a.pdf"] ∧
    (∃ added : List IndexedChunk,
      upload_pdf env0 "a.pdf" (Except.ok ["x"]) [] =
        (Except.ok (UploadResponse.mk "PDF indexed successfully"
            (([PageChunk.mk "x" 1 "a.pdf"].map
              (fun pc => (page_chunk_list pc.text).length)).sum)),
         [] ++ added) ∧
      ∀ c ∈ added, ∃ pc ∈ [PageChunk.mk "x" 1 "a.pdf"],
        c.page = pc.page ∧ c.source = pc.source ∧ c.text ∈ page_chunk_list pc.text) :=
  ⟨by decide, by rfl,
   C7_provenance env0 "a.pdf" (Except.ok ["x"]) [] [PageChunk.mk "x" 1 "a.pdf"]
     (by decide) (by rfl)⟩

/-- Page 1 of the end-to-end example: 600 whitespace-delimited tokens. -/
def words600 : List String := List.replicate 600 "w"

/-- Page 2 of the end-to-end example: 10 whitespace-delimited tokens. -/
def words10 : List String := List.replicate 10 "w"

def text600 : String := py_join " " words600

def text10 : String := py_join " " words10

theorem replicate_good (n : Nat) : ∀ w ∈ List.replicate n "w", goodToken w := by
  intro w hw
  rw [List.eq_of_mem_replicate hw]
  exact ⟨by decide, by decide⟩

theorem py_split_text600 : py_split text600 = words600 :=
  py_split_py_join words600 (replicate_good 600)

theorem py_split_text10 : py_split text10 = words10 :=
  py_split_py_join words10 (replicate_good 10)

theorem chunk_words_600 :
    chunk_words words600 500 50 =
      [List.replicate 500 "w", List.replicate 150 "w"] := by
  have h1 : pyRangeN words600.length (500 - 50) = [0, 450] := by
    rw [words600, List.length_replicate]
    decide
  rw [chunk_words, h1]
  simp [window, words600]

theorem chunk_words_10 :
    chunk_words words10 500 50 = [List.replicate 10 "w"] := by
  have h1 : pyRangeN words10.length (500 - 50) = [0] := by
    rw [words10, List.length_replicate]
    decide
  rw [chunk_words, h1]
  simp [window, words10]

theorem page_chunk_list_600 :
    page_chunk_list text600 =
      [py_join " " (List.replicate 500 "w"), py_join " " (List.replicate 150 "w")] := by
  rw [page_chunk_list, py_split_text600, chunk_words_600]
  rfl

theorem page_chunk_list_10 :
    page_chunk_list text10 = [py_join " " (List.replicate 10 "w")] := by
  rw [page_chunk_list, py_split_text10, chunk_words_10]
  rfl

theorem extract_two_pages :
    extract_text_from_pdf "doc.pdf" (Except.ok [text600, text10]) =
      Except.ok [PageChunk.mk text600 1 "doc.pdf", PageChunk.mk text10 2 "doc.pdf"] := by
  have h600 : py_strip text600 ≠ "" :=
    py_strip_join_ne_empty words600 (replicate_good 600) (by rw [words600]; simp)
  have h10 : py_strip text10 ≠ "" :=
    py_strip_join_ne_empty words10 (replicate_good 10) (by rw [words10]; simp)
  have he : ([text600, text10]).enum = [(0, text600), (1, text10)] := rfl
  simp [extract_text_from_pdf, he, h600, h10]

/-- C8: the end-to-end ingestion example: the 600-token page 1 yields
exactly the two chunks made of tokens [0, 500) and tokens [450, 600), the
10-token page 2 yields one chunk holding all its tokens, and uploading the
two-page document reports chunks_added = 3. -/
theorem C8_end_to_end (env : Env) :
    chunk_text text600 500 50 =
      Except.ok [py_join " " (words600.take 500), py_join " " (words600.drop 450)] ∧
    chunk_text text10 500 50 = Except.ok [py_join " " words10] ∧
    ∃ st : List IndexedChunk,
      upload_pdf env "doc.pdf" (Except.ok [text600, text10]) [] =
        (Except.ok (UploadResponse.mk "PDF indexed successfully" 3), st) := by
  have htake : words600.take 500 = List.replicate 500 "w" := by
    rw [words600]
    simp
  have hdrop : words600.drop 450 = List.replicate 150 "w" := by
    rw [words600]
    simp
  refine ⟨?_, ?_, ?_⟩
  · rw [chunk_text_ok text600 500 50 (by omega), py_split_text600, chunk_words_600,
      htake, hdrop]
    rfl
  · rw [chunk_text_ok text10 500 50 (by omega), py_split_text10, chunk_words_10, words10]
    rfl
  · refine ⟨add_from env 0 (new_chunks
      [PageChunk.mk text600 1 "doc.pdf", PageChunk.mk text10 2 "doc.pdf"]), ?_⟩
    rw [upload_pdf_ok env "doc.pdf" (Except.ok [text600, text10]) []
        [PageChunk.mk text600 1 "doc.pdf", PageChunk.mk text10 2 "doc.pdf"]
        (by decide) extract_two_pages]
    rw [new_chunks_length]
    simp [page_chunk_list_600, page_chunk_list_10]

/-- Witness for C8_end_to_end at the concrete environment env0. -/
theorem C8_end_to_end_witness :
    chunk_text text600 500 50 =
      Except.ok [py_join " " (words600.take 500), py_join " " (words600.drop 450)] ∧
    chunk_text text10 500 50 = Except.ok [py_join " " words10] ∧
    ∃ st : List IndexedChunk,
      upload_pdf env0 "doc.pdf" (Except.ok [text600, text10]) [] =
        (Except.ok (UploadResponse.mk "PDF indexed successfully" 3), st) :=
  C8_end_to_end env0

/-- C9: a rejected document format or a failed extraction leaves the
collection untouched: the endpoint returns an error and the state component
of the result is exactly the prior state, so no chunk of the failing
document is added and previously indexed chunks are unaffected. -/
theorem C9_unchanged (env : Env) (filename : String)
    (pdf : Except String (List String)) (st : List IndexedChunk)
    (h : py_endswith filename ".pdf" = false ∨ ∃ e, pdf = Except.error e) :
    ∃ err, upload_pdf env filename pdf st = (Except.error err, st) := by
  rcases h with h | ⟨e, rfl⟩
  · exact ⟨PyError.httpException 400 "Only PDF files are allowed",
      by rw [upload_pdf, if_pos h]⟩
  · by_cases hname : py_endswith filename ".pdf" = false
    · exact ⟨PyError.httpException 400 "Only PDF files are allowed",
        by rw [upload_pdf, if_pos hname]⟩
    · refine ⟨PyError.httpException 400 ("Error reading PDF: " ++ e), ?_⟩
      rw [upload_pdf, if_neg hname]
      rfl

/-- Witness for C9_unchanged: a file that is not a pdf, with one chunk
already indexed. -/
theorem C9_unchanged_witness :
    (py_endswith "a.txt" ".pdf" = false ∨
      ∃ e, (Except.ok [] : Except String (List String)) = Except.error e) ∧
    ∃ err, upload_pdf env0 "a.txt" (Except.ok []) [IndexedChunk.mk "i" [] "t" 1 "s"] =
      (Except.error err, [IndexedChunk.mk "i" [] "t" 1 "s"]) :=
  ⟨Or.inl (by decide),
   C9_unchanged env0 "a.txt" (Except.ok []) [IndexedChunk.mk "i" [] "t" 1 "s"]
     (Or.inl (by decide))⟩

theorem page_chunk_list_tokens (t : String) :
    ∀ c ∈ page_chunk_list t, (py_split c).length ≤ 500 := by
  intro c hc
  obtain ⟨w, hw, rfl⟩ := List.mem_map.mp hc
  rw [py_split_py_join w (fun u hu => chunk_words_good t 500 50 w hw u hu)]
  obtain ⟨i, _, rfl⟩ := List.mem_map.mp hw
  exact List.length_take_le _ _

/-- C10: the ingestion path always invokes the chunker with the fixed
default parameters chunk_size 500 and overlap 50 (upload_pdf passes no
others and exposes none), so after any upload every chunk of the collection
is either a previously indexed one or a 500/50 chunk of some page text,
holding at most 500 whitespace-delimited tokens. -/
theorem C10_fixed_params (env : Env) (filename : String)
    (pdf : Except String (List String)) (st : List IndexedChunk)
    (res : Except PyError UploadResponse) (st2 : List IndexedChunk)
    (hrun : upload_pdf env filename pdf st = (res, st2)) :
    ∀ c ∈ st2, c ∈ st ∨
      ∃ t, chunk_text t 500 50 = Except.ok (page_chunk_list t) ∧
        c.text ∈ page_chunk_list t ∧ (py_split c.text).length ≤ 500 := by
  intro c hc
  by_cases hname : py_endswith filename ".pdf" = false
  · rw [upload_pdf, if_pos hname] at hrun
    cases hrun
    exact Or.inl hc
  · have hname2 : py_endswith filename ".pdf" = true := by
      revert hname
      cases py_endswith filename ".pdf" <;> simp
    cases hpdf : extract_text_from_pdf filename pdf with
    | error e =>
      rw [upload_pdf, if_neg hname, hpdf] at hrun
      cases hrun
      exact Or.inl hc
    | ok page_chunks =>
      rw [upload_pdf_ok env filename pdf st page_chunks hname2 hpdf] at hrun
      cases hrun
      rcases List.mem_append.mp hc with hmem | hmem
      · exact Or.inl hmem
      · obtain ⟨p, hp, ht, _, _⟩ := add_from_mem env 0 (new_chunks page_chunks) c hmem
        obtain ⟨pc, _, htl, _, _⟩ := new_chunks_mem page_chunks p hp
        refine Or.inr ⟨pc.text, chunk_text_default pc.text, ?_, ?_⟩
        · rw [ht]
          exact htl
        · exact page_chunk_list_tokens pc.text c.text (by rw [ht]; exact htl)

/-- Witness for C10_fixed_params: uploading a one-page one-token pdf into
an empty collection; the stored chunk is a 500/50 chunk of the page text
with at most 500 tokens. -/
theorem C10_fixed_params_witness :
    IndexedChunk.mk "" [] "x" 1 "a.pdf" ∈ ([] : List IndexedChunk) ∨
      ∃ t, chunk_text t 500 50 = Except.ok (page_chunk_list t) ∧
        (IndexedChunk.mk "" [] "x" 1 "a.pdf").text ∈ page_chunk_list t ∧
        (py_split (IndexedChunk.mk "" [] "x" 1 "a.pdf").text).length ≤ 500 :=
  C10_fixed_params env0 "a.pdf" (Except.ok ["x"]) []
    (Except.ok (UploadResponse.mk "PDF indexed successfully" 1))
    [IndexedChunk.mk "" [] "x" 1 "a.pdf"] (by rfl)
    (IndexedChunk.mk "" [] "x" 1 "a.pdf") (by simp)

end RAG
